import Mathlib

/-!
Verification of the natural-language specification of the
`amazon-bedrock-workshop` notebooks against a shallow embedding of the
two source notebooks:

* `06_OpenSource_examples/cross-region-inference/Getting_started_with_Cross-region_Inference.ipynb`
* `06_OpenSource_examples/01_Langchain_KnowledgeBases_and_RAG_examples/03_qa_w_rag_bedrock_titan_pgvector.ipynb`

Python values are embedded as follows: `Optional[str]` becomes
`Option String`, the process environment becomes a partial map from
variable names to values, boto3 clients become records of the
configuration the scripts give them, and calls to external managed
services become parameters (oracles) or events in an explicit call
trace.  All definitions are translated from the notebook source.
-/

namespace BedrockWorkshop

/-! ## Process environment -/

/-- The process environment, as read by `os.environ.get` in the notebooks:
a partial map from variable names to values.  A variable that is set to
the empty string is `some ""`, distinct from an unset variable (`none`),
matching Python `dict.get` semantics. -/
def EnvMap : Type := String → Option String

/-- Embedding of a single `os.environ[k] = v` assignment. -/
def setEnv (e : EnvMap) (k v : String) : EnvMap :=
  fun q => if q = k then some v else e q

/-- The three environment variables `get_bedrock_client` reads
(`AWS_REGION`, `AWS_DEFAULT_REGION`, `AWS_PROFILE`), projected out of the
process environment. -/
structure Env where
  aws_region : Option String
  aws_default_region : Option String
  aws_profile : Option String
deriving DecidableEq, Repr

/-! ## Helper cell of the cross-region notebook: `get_bedrock_client`

Python truthiness drives two branches of `get_bedrock_client`
(`if profile_name:`, `if not service_name:`, `if runtime:`,
`if assumed_role:`); for an `Optional[str]` both `None` and `""` are
falsy, and for an `Optional[bool]` both `None` and `False` are falsy. -/

/-- Python truthiness of an `Optional[str]` value. -/
def truthy_str : Option String → Bool
  | none => false
  | some s => s != ""

/-- Python truthiness of an `Optional[bool]` value. -/
def truthy_bool : Option Bool → Bool
  | none => false
  | some b => b

/-- Embedding of the region resolution at the top of `get_bedrock_client`:

`if region is None: target_region = os.environ.get("AWS_REGION",
os.environ.get("AWS_DEFAULT_REGION")) else: target_region = region`. -/
def resolve_target_region (region : Option String) (env : Env) : Option String :=
  match region with
  | none =>
    match env.aws_region with
    | some v => some v
    | none => env.aws_default_region
  | some r => some r

/-- Embedding of the service-name defaulting in `get_bedrock_client`:

`if not service_name: service_name = 'bedrock-runtime' if runtime else
'bedrock'` (written in the source as a nested `if`). -/
def resolve_service_name (service_name : Option String) (runtime : Option Bool) : String :=
  match service_name with
  | none => if truthy_bool runtime then "bedrock-runtime" else "bedrock"
  | some s =>
    if s = "" then (if truthy_bool runtime then "bedrock-runtime" else "bedrock")
    else s

/-- The `retries` dictionary of the `botocore.config.Config` value built
inside `get_bedrock_client`. -/
structure RetrySettings where
  max_attempts : Nat
  mode : String
deriving DecidableEq, Repr

/-- The `botocore.config.Config` value (`retry_config` in the source):
`Config(region_name=target_region, retries={"max_attempts": 10,
"mode": "standard"})`. -/
structure BotoConfig where
  region_name : Option String
  retries : RetrySettings
deriving DecidableEq, Repr

/-- The boto3 client returned by `get_bedrock_client`, recorded as the
configuration the function hands to `session.client`: the resolved
service name and region, the session profile (when truthy), the retry
`Config`, and the role assumed for credentials (when truthy).  The
actual credential values come from an external `sts.assume_role` call
and are not part of the embedding. -/
structure BedrockClient where
  service_name : String
  region_name : Option String
  profile_name : Option String
  config : BotoConfig
  assumed_role : Option String
deriving DecidableEq, Repr

/-- Embedding of `get_bedrock_client(assumed_role, region, runtime,
service_name)` reading the environment `env`.  Argument defaults in the
Python signature are `None`, `None`, `True`, `None`. -/
def get_bedrock_client (assumed_role : Option String) (region : Option String)
    (runtime : Option Bool) (service_name : Option String) (env : Env) :
    BedrockClient :=
  let target_region := resolve_target_region region env
  let profile_name := env.aws_profile
  let retry_config : BotoConfig :=
    { region_name := target_region
      retries := { max_attempts := 10, mode := "standard" } }
  { service_name := resolve_service_name service_name runtime
    region_name := target_region
    profile_name := if truthy_str profile_name then profile_name else none
    config := retry_config
    assumed_role := if truthy_str assumed_role then assumed_role else none }

/-- The environment at the point of the notebook cell
`boto3_client = get_bedrock_client(region='us-east-1', runtime=False)`,
which runs right after `os.environ["AWS_PROFILE"] = 'profile_acct_4'`. -/
def cell4_env : Env :=
  { aws_region := none, aws_default_region := none
    aws_profile := some "profile_acct_4" }

end BedrockWorkshop

namespace BedrockWorkshop

/-! ## Theorems about `get_bedrock_client` (claims C1, C7, C8) -/

/-- C8: for every call to `get_bedrock_client` with `service_name` unset,
the created client targets service `"bedrock-runtime"` exactly when the
`runtime` flag is `True` and `"bedrock"` otherwise; when the `region`
argument is `None` the target region is taken from `AWS_REGION`, falling
back to `AWS_DEFAULT_REGION`, while an explicit `region` argument takes
precedence over both. -/
theorem get_bedrock_client_service_and_region
    (ar : Option String) (rt : Option Bool) (env : Env) (reg : Option String) :
    ((get_bedrock_client ar reg rt none env).service_name = "bedrock-runtime"
        ↔ rt = some true)
    ∧ ((get_bedrock_client ar reg rt none env).service_name = "bedrock"
        ↔ rt ≠ some true)
    ∧ (∀ r : String,
        (get_bedrock_client ar (some r) rt none env).region_name = some r)
    ∧ ((get_bedrock_client ar none rt none env).region_name =
        match env.aws_region with
        | some v => some v
        | none => env.aws_default_region) := by
  refine ⟨?_, ?_, ?_, ?_⟩
  · match rt with
    | none => simp [get_bedrock_client, resolve_service_name, truthy_bool]
    | some true => simp [get_bedrock_client, resolve_service_name, truthy_bool]
    | some false => simp [get_bedrock_client, resolve_service_name, truthy_bool]
  · match rt with
    | none => simp [get_bedrock_client, resolve_service_name, truthy_bool]
    | some true => simp [get_bedrock_client, resolve_service_name, truthy_bool]
    | some false => simp [get_bedrock_client, resolve_service_name, truthy_bool]
  · intro r
    rfl
  · rfl

/-- C1 counterexample: the claim says no client is configured to retry
failed requests, but the client built by the very first call in the
cross-region notebook, `get_bedrock_client(region='us-east-1',
runtime=False)`, carries a boto3 retry configuration of up to 10
attempts in standard mode. -/
theorem get_bedrock_client_retries_configured :
    (get_bedrock_client none (some "us-east-1") (some false) none
        cell4_env).config.retries =
      { max_attempts := 10, mode := "standard" } := rfl

/-- C1 amended: every client created through `get_bedrock_client`,
whatever its arguments and environment, is configured with the boto3
retry policy `max_attempts = 10`, `mode = "standard"`. -/
theorem get_bedrock_client_always_retries
    (ar reg sn : Option String) (rt : Option Bool) (env : Env) :
    (get_bedrock_client ar reg rt sn env).config.retries.max_attempts = 10
    ∧ (get_bedrock_client ar reg rt sn env).config.retries.mode = "standard" :=
  ⟨rfl, rfl⟩

/-- C7 counterexample: the claim says no function in the source computes
its result deterministically from its inputs alone, but the region and
service-name resolution inside `get_bedrock_client` is pure logic whose
results below are fixed by the arguments, with no external service
response involved. -/
theorem deterministic_logic_exists :
    resolve_service_name none (some true) = "bedrock-runtime"
    ∧ resolve_service_name none (some false) = "bedrock"
    ∧ resolve_target_region none
        { aws_region := some "eu-west-1", aws_default_region := some "us-east-1"
          aws_profile := none } = some "eu-west-1"
    ∧ resolve_target_region (some "ap-south-1")
        { aws_region := some "eu-west-1", aws_default_region := some "us-east-1"
          aws_profile := none } = some "ap-south-1" :=
  ⟨rfl, rfl, rfl, rfl⟩

/-- C7 amended: while all model outputs depend on live external
responses, the source does contain deterministic, reimplementable
logic: the region and service-name resolution of `get_bedrock_client`
is a pure function of the call arguments and the environment snapshot,
characterised completely by these equations. -/
theorem client_resolution_deterministic :
    (∀ rt, resolve_service_name none rt =
        if rt = some true then "bedrock-runtime" else "bedrock")
    ∧ (∀ s rt, s ≠ "" → resolve_service_name (some s) rt = s)
    ∧ (∀ r env, resolve_target_region (some r) env = some r)
    ∧ (∀ env, resolve_target_region none env =
        match env.aws_region with
        | some v => some v
        | none => env.aws_default_region) := by
  refine ⟨?_, ?_, ?_, ?_⟩
  · intro rt
    match rt with
    | none => rfl
    | some true => rfl
    | some false => rfl
  · intro s rt hs
    simp [resolve_service_name, hs]
  · intro r env
    rfl
  · intro env
    rfl

/-- Witness for `client_resolution_deterministic`: the hypothesis
`s ≠ ""` is satisfiable, e.g. by the service name `"sts"` used in the
cross-region notebook. -/
theorem client_resolution_deterministic_witness :
    ("sts" : String) ≠ "" ∧ resolve_service_name (some "sts") (some true) = "sts" :=
  ⟨by decide, client_resolution_deterministic.2.1 "sts" (some true) (by decide)⟩

/-! ## Exception handling in the logging-setup cell (claim C2)

The monitoring cell of the cross-region notebook wraps exactly two
external calls in `try`/`except` blocks:

`try: iam_client.create_role(...) except
iam_client.exceptions.EntityAlreadyExistsException: pass`

`try: logs_client.create_log_group(...) except
logs_client.exceptions.ResourceAlreadyExistsException: pass`

The outcome of the external call is embedded as an `Except` value passed
in: `.ok` for a normal return, `.error e` when the call raised `e`. -/

/-- Exceptions raised by the AWS client libraries, as distinguished by
the `except` clauses in the source; every other exception is kept
abstract by its name. -/
inductive AwsException where
  | entityAlreadyExists
  | resourceAlreadyExists
  | other (name : String)
deriving DecidableEq, Repr

/-- Embedding of the `try`/`except` around `iam_client.create_role`:
`EntityAlreadyExistsException` is suppressed (`pass`), anything else
propagates. -/
def create_role_guarded (result : Except AwsException Unit) :
    Except AwsException Unit :=
  match result with
  | .error .entityAlreadyExists => .ok ()
  | r => r

/-- Embedding of the `try`/`except` around `logs_client.create_log_group`:
`ResourceAlreadyExistsException` is suppressed (`pass`), anything else
propagates. -/
def create_log_group_guarded (result : Except AwsException Unit) :
    Except AwsException Unit :=
  match result with
  | .error .resourceAlreadyExists => .ok ()
  | r => r

/-- C2 counterexample: the claim says no exception raised by an external
call is caught or suppressed anywhere in the source, but the
`try`/`except` around `iam_client.create_role` suppresses
`EntityAlreadyExistsException` and the one around
`logs_client.create_log_group` suppresses
`ResourceAlreadyExistsException`, both turning the raised exception into
a normal continuation. -/
theorem exceptions_are_suppressed :
    create_role_guarded (.error .entityAlreadyExists) = .ok ()
    ∧ create_log_group_guarded (.error .resourceAlreadyExists) = .ok () :=
  ⟨rfl, rfl⟩

/-- C2 amended: exception handling is limited to two local
`try`/`except` blocks in the logging-setup cell —
`EntityAlreadyExistsException` from `create_role` and
`ResourceAlreadyExistsException` from `create_log_group` are caught and
suppressed; every other exception raised by those two calls propagates
unchanged, as do normal returns. -/
theorem guarded_calls_only_suppress_already_exists :
    (create_role_guarded (.error .entityAlreadyExists) = .ok ())
    ∧ (create_log_group_guarded (.error .resourceAlreadyExists) = .ok ())
    ∧ (∀ e : AwsException, e ≠ .entityAlreadyExists →
        create_role_guarded (.error e) = .error e)
    ∧ (∀ e : AwsException, e ≠ .resourceAlreadyExists →
        create_log_group_guarded (.error e) = .error e)
    ∧ (∀ u : Unit, create_role_guarded (.ok u) = .ok u
        ∧ create_log_group_guarded (.ok u) = .ok u) := by
  refine ⟨rfl, rfl, ?_, ?_, ?_⟩
  · intro e he
    match e with
    | .entityAlreadyExists => exact absurd rfl he
    | .resourceAlreadyExists => rfl
    | .other n => rfl
  · intro e he
    match e with
    | .entityAlreadyExists => rfl
    | .resourceAlreadyExists => exact absurd rfl he
    | .other n => rfl
  · intro u
    exact ⟨rfl, rfl⟩

/-- Witness for `guarded_calls_only_suppress_already_exists`: an
`AccessDenied` exception is not one of the two suppressed ones and does
propagate out of the guarded `create_role` call. -/
theorem guarded_calls_witness :
    (AwsException.other "AccessDenied") ≠ AwsException.entityAlreadyExists
    ∧ create_role_guarded (.error (.other "AccessDenied")) =
        .error (.other "AccessDenied") :=
  ⟨by decide,
    guarded_calls_only_suppress_already_exists.2.2.1 (.other "AccessDenied")
      (by decide)⟩

/-! ## Process-global state mutated by the notebooks (claims C5, C10)

The RAG notebook assigns six `PGVECTOR_*` environment variables, the
cross-region notebook assigns `AWS_PROFILE` (in two cells), and
`print_ww` temporarily replaces `sys.stdout`.  The interpreter state is
embedded as the current `sys.stdout` stream id together with the list of
writes performed (stream id, text). -/

/-- Embedding of the RAG notebook cell that assigns the six
`PGVECTOR_*` environment variables, in source order. -/
def rag_env_setup (e : EnvMap) : EnvMap :=
  setEnv (setEnv (setEnv (setEnv (setEnv (setEnv e
    "PGVECTOR_DRIVER" "psycopg2")
    "PGVECTOR_USER" "<<postgres user>>")
    "PGVECTOR_PASSWORD" "<<password>>")
    "PGVECTOR_HOST" "<<host endpoint>>")
    "PGVECTOR_PORT" "5432")
    "PGVECTOR_DATABASE" "<<database name>>"

/-- The six environment variable names assigned by `rag_env_setup`. -/
def pgvector_env_keys : List String :=
  ["PGVECTOR_DRIVER", "PGVECTOR_USER", "PGVECTOR_PASSWORD",
   "PGVECTOR_HOST", "PGVECTOR_PORT", "PGVECTOR_DATABASE"]

/-- Embedding of the two cross-region notebook cells that each run
`os.environ["AWS_PROFILE"] = 'profile_acct_4'`. -/
def cross_region_env_setup (e : EnvMap) : EnvMap :=
  setEnv (setEnv e "AWS_PROFILE" "profile_acct_4") "AWS_PROFILE" "profile_acct_4"

/-- The empty process environment (no variable set). -/
def emptyEnvMap : EnvMap := fun _ => none

/-- Interpreter state visible to `print_ww`: the stream currently bound
to `sys.stdout` (a stream id: `0` for the process stdout, other ids for
`StringIO` buffers) and the ordered list of writes performed, each
tagged with the stream it went to. -/
structure Interp where
  stdout : Nat
  writes : List (Nat × String)
deriving DecidableEq, Repr

/-- Embedding of a Python `print(text)`: appends a write to the stream
currently bound to `sys.stdout`. -/
def do_print (text : String) (s : Interp) : Interp :=
  { s with writes := s.writes ++ [(s.stdout, text)] }

/-- Embedding of `print_ww`.  `wrap` models
`"\n".join(textwrap.wrap(line, width=width))`; `printResult` is the text
the wrapped `print(*args, **kwargs)` call produces in the buffer, or
`none` when that call raises; `b` is the stream id of the fresh
`StringIO` buffer.  The body mirrors the source: inside `try`, the
current `sys.stdout` is saved, `sys.stdout` is rebound to the buffer and
`print` runs; the `finally` block restores the saved stream whether or
not `print` raised; on normal completion each line of the captured
output is re-printed, wrapped, to the restored stream. -/
def print_ww (wrap : String → String) (printResult : Option String) (b : Nat)
    (s : Interp) : Except Unit Unit × Interp :=
  let saved := s.stdout
  let s1 := { s with stdout := b }
  match printResult with
  | none => (.error (), { s1 with stdout := saved })
  | some output =>
    let s2 := do_print output s1
    let s3 := { s2 with stdout := saved }
    let s4 := (output.splitOn "\n").foldl (fun st line => do_print (wrap line) st) s3
    (.ok (), s4)

/-- Helper: re-printing the wrapped lines never rebinds `sys.stdout`. -/
theorem foldl_do_print_stdout (wrap : String → String) (lines : List String)
    (st : Interp) :
    (lines.foldl (fun st line => do_print (wrap line) st) st).stdout = st.stdout := by
  induction lines generalizing st with
  | nil => rfl
  | cons l ls ih => simpa [do_print] using ih (do_print (wrap l) st)

/-- Helper lemma shared by the claims about `print_ww`: whatever the
wrapping function, the outcome of the inner `print`, the buffer id and
the starting state, the state after `print_ww` has `sys.stdout` bound to
the same stream as on entry — the `finally` block restores it both on
normal return and when the inner `print` raises. -/
theorem print_ww_preserves_stdout (wrap : String → String)
    (printResult : Option String) (b : Nat) (s : Interp) :
    (print_ww wrap printResult b s).2.stdout = s.stdout := by
  match printResult with
  | none => rfl
  | some output =>
    simp only [print_ww]
    exact foldl_do_print_stdout wrap (output.splitOn "\n") _

/-- C10: every call to `print_ww` restores `sys.stdout` to the value it
had on entry, whether the wrapped `print` returns normally or raises, so
the interpreter stdout binding is unchanged after the call returns or
propagates an error; moreover when the wrapped `print` raises, the error
propagates out of `print_ww`. -/
theorem print_ww_restores_stdout (wrap : String → String)
    (printResult : Option String) (b : Nat) (s : Interp) :
    (print_ww wrap printResult b s).2.stdout = s.stdout
    ∧ (printResult = none → (print_ww wrap printResult b s).1 = .error ()) := by
  refine ⟨print_ww_preserves_stdout wrap printResult b s, ?_⟩
  intro h
  subst h
  rfl

/-- Witness for `print_ww_restores_stdout`, at a raising `print` on a
concrete state. -/
theorem print_ww_restores_stdout_witness :
    (print_ww id none 7 { stdout := 0, writes := [] }).2.stdout = 0
    ∧ (print_ww id none 7 { stdout := 0, writes := [] }).1 = .error () := by
  have h := print_ww_restores_stdout id none 7 { stdout := 0, writes := [] }
  exact ⟨h.1, h.2 rfl⟩

/-- C5 counterexample: the claim says no process-global state such as
environment variables is modified, but the RAG notebook sets
`PGVECTOR_DRIVER` (among five other variables) and the cross-region
notebook sets `AWS_PROFILE`, changing the process environment. -/
theorem env_vars_are_modified :
    rag_env_setup emptyEnvMap "PGVECTOR_DRIVER" = some "psycopg2"
    ∧ emptyEnvMap "PGVECTOR_DRIVER" = none
    ∧ rag_env_setup emptyEnvMap ≠ emptyEnvMap
    ∧ cross_region_env_setup emptyEnvMap "AWS_PROFILE" = some "profile_acct_4" := by
  refine ⟨by decide, rfl, ?_, by decide⟩
  intro h
  have h2 := congrFun h "PGVECTOR_DRIVER"
  revert h2
  decide

/-- C5 amended: execution is single-threaded and sequential, but the
scripts do modify process-global interpreter state: the RAG notebook
sets exactly the six `PGVECTOR_*` environment variables (to the literal
values below), the cross-region notebook sets `AWS_PROFILE` to
`'profile_acct_4'`, and `print_ww` temporarily rebinds `sys.stdout`,
restoring it before returning or propagating an exception; no other
environment variable is touched. -/
theorem global_state_mutation_characterised :
    (∀ (e : EnvMap) (k : String), k ∉ pgvector_env_keys →
        rag_env_setup e k = e k)
    ∧ (∀ e : EnvMap,
        rag_env_setup e "PGVECTOR_DRIVER" = some "psycopg2"
        ∧ rag_env_setup e "PGVECTOR_USER" = some "<<postgres user>>"
        ∧ rag_env_setup e "PGVECTOR_PASSWORD" = some "<<password>>"
        ∧ rag_env_setup e "PGVECTOR_HOST" = some "<<host endpoint>>"
        ∧ rag_env_setup e "PGVECTOR_PORT" = some "5432"
        ∧ rag_env_setup e "PGVECTOR_DATABASE" = some "<<database name>>")
    ∧ (∀ (e : EnvMap) (k : String), k ≠ "AWS_PROFILE" →
        cross_region_env_setup e k = e k)
    ∧ (∀ e : EnvMap,
        cross_region_env_setup e "AWS_PROFILE" = some "profile_acct_4")
    ∧ (∀ (wrap : String → String) (pr : Option String) (b : Nat) (s : Interp),
        (print_ww wrap pr b s).2.stdout = s.stdout) := by
  refine ⟨?_, ?_, ?_, ?_, ?_⟩
  · intro e k hk
    simp only [pgvector_env_keys, List.mem_cons, List.not_mem_nil, or_false,
      not_or] at hk
    obtain ⟨h1, h2, h3, h4, h5, h6⟩ := hk
    simp [rag_env_setup, setEnv, h1, h2, h3, h4, h5, h6]
  · intro e
    refine ⟨?_, ?_, ?_, ?_, ?_, ?_⟩ <;> simp [rag_env_setup, setEnv]
  · intro e k hk
    simp [cross_region_env_setup, setEnv, hk]
  · intro e
    simp [cross_region_env_setup, setEnv]
  · exact print_ww_preserves_stdout

/-- Witness for `global_state_mutation_characterised`: the variable
`HOME` is not among the keys assigned, and indeed survives both setup
cells unchanged from a concrete environment. -/
theorem global_state_mutation_witness :
    ("HOME" : String) ∉ pgvector_env_keys
    ∧ ("HOME" : String) ≠ "AWS_PROFILE"
    ∧ rag_env_setup emptyEnvMap "HOME" = emptyEnvMap "HOME"
    ∧ cross_region_env_setup emptyEnvMap "HOME" = emptyEnvMap "HOME" :=
  ⟨by decide, by decide,
    global_state_mutation_characterised.1 emptyEnvMap "HOME" (by decide),
    global_state_mutation_characterised.2.2.1 emptyEnvMap "HOME" (by decide)⟩

/-! ## Call trace of the cross-region notebook (claims C4, C6)

The cross-region notebook is straight-line code; its external API calls
are embedded as an ordered event list.  The only value in the trace not
a source literal is the AWS account id, returned by
`sts.get_caller_identity()` and interpolated into the inference-profile
ARN of one `converse` call, so the trace is parametrised by it. -/

/-- One external API call made by the cross-region notebook.  LangChain
chat invocations (`ChatBedrockConverse` / `ChatBedrock`) are recorded as
`langchainChat` since the notebook drives them through the library, not
through the Bedrock client directly. -/
inductive ApiCall where
  | listFoundationModels
  | getCallerIdentity
  | listInferenceProfiles
  | getInferenceProfile (profileId : String)
  | converse (modelId : String)
  | invokeModel (modelId : String)
  | langchainChat (modelId : String)
  | createRole (roleName : String)
  | putRolePolicy (roleName : String)
  | createLogGroup (name : String)
  | putRetentionPolicy (name : String) (days : Nat)
  | putModelInvocationLoggingConfiguration (logGroup : String)
  | putMetricFilter (logGroup : String) (filterName : String)
deriving DecidableEq, Repr

/-- `region_name = 'us-east-1'` from the notebook. -/
def region_name : String := "us-east-1"

/-- `log_group_name = 'bedrock-model-invocation-logging'`. -/
def log_group_name : String := "bedrock-model-invocation-logging"

/-- `role_name = 'AmazonBedrockModelInvocationCWDeliveryRole'`. -/
def role_name : String := "AmazonBedrockModelInvocationCWDeliveryRole"

/-- The id pairs of the Converse-API demo cell:
`modelId = ('Foundation Model', 'anthropic.claude-3-haiku-20240307-v1:0')`,
`inferenceProfileId = ('Inference Profile',
'us.anthropic.claude-3-haiku-20240307-v1:0')`, iterated as
`[modelId, inferenceProfileId]`. -/
def converse_demo_ids : List (String × String) :=
  [("Foundation Model", "anthropic.claude-3-haiku-20240307-v1:0"),
   ("Inference Profile", "us.anthropic.claude-3-haiku-20240307-v1:0")]

/-- The id pairs of the InvokeModel-API demo cell:
`modelId = ('Foundation Model', 'anthropic.claude-3-sonnet-20240229-v1:0')`,
`inferenceProfileId = ('Inference Profile',
'us.anthropic.claude-3-sonnet-20240229-v1:0')`, iterated as
`[modelId, inferenceProfileId]`. -/
def invoke_demo_ids : List (String × String) :=
  [("Foundation Model", "anthropic.claude-3-sonnet-20240229-v1:0"),
   ("Inference Profile", "us.anthropic.claude-3-sonnet-20240229-v1:0")]

/-- Embedding of the notebook's f-string interpolating `region_name`,
`account_id` and `inference_profile_id =
"us.anthropic.claude-3-sonnet-20240229-v1:0"` into an
inference-profile ARN. -/
def inference_profile_arn (account_id : String) : String :=
  "arn:aws:bedrock:" ++ region_name ++ ":" ++ account_id ++
    ":inference-profile/us.anthropic.claude-3-sonnet-20240229-v1:0"

/-- The ordered list of external API calls the cross-region notebook
makes when its code cells run top to bottom, one event per call site, in
source order: `list_foundation_models`, `get_caller_identity`,
`list_inference_profiles`, `get_inference_profile`, the Converse demo
loop, the Converse call on the inference-profile ARN, the InvokeModel
demo loop, the four LangChain chat invocations, then the logging-setup
cell (`create_role`, `put_role_policy`, `create_log_group`,
`put_retention_policy`, `put_model_invocation_logging_configuration`)
and the metric-filter cell. -/
def cross_region_notebook_calls (account_id : String) : List ApiCall :=
  [ApiCall.listFoundationModels,
   ApiCall.getCallerIdentity,
   ApiCall.listInferenceProfiles,
   ApiCall.getInferenceProfile "us.anthropic.claude-3-5-sonnet-20240620-v1:0"]
  ++ converse_demo_ids.map (fun p => ApiCall.converse p.2)
  ++ [ApiCall.converse (inference_profile_arn account_id)]
  ++ invoke_demo_ids.map (fun p => ApiCall.invokeModel p.2)
  ++ [ApiCall.langchainChat "us.anthropic.claude-3-sonnet-20240229-v1:0",
      ApiCall.langchainChat "us.anthropic.claude-3-sonnet-20240229-v1:0",
      ApiCall.langchainChat "us.anthropic.claude-3-haiku-20240307-v1:0",
      ApiCall.langchainChat "us.anthropic.claude-3-haiku-20240307-v1:0",
      ApiCall.createRole role_name,
      ApiCall.putRolePolicy role_name,
      ApiCall.createLogGroup log_group_name,
      ApiCall.putRetentionPolicy log_group_name 365,
      ApiCall.putModelInvocationLoggingConfiguration log_group_name,
      ApiCall.putMetricFilter log_group_name
        "bedrock_cross_region_inference_rerouted"]

/-- A call that sends a model invocation (directly or via LangChain). -/
def isModelInvocation : ApiCall → Bool
  | .converse _ => true
  | .invokeModel _ => true
  | .langchainChat _ => true
  | _ => false

/-- A call that mutates attributes or configuration of an
already-created managed resource (as opposed to creating one or reading
state). -/
def mutatesExistingResource : ApiCall → Bool
  | .putRolePolicy _ => true
  | .putRetentionPolicy _ _ => true
  | .putModelInvocationLoggingConfiguration _ => true
  | .putMetricFilter _ _ => true
  | _ => false

/-- CloudWatch log group state as far as the notebook touches it. -/
structure LogGroup where
  name : String
  retentionInDays : Option Nat
deriving DecidableEq, Repr

/-- Embedding of `logs_client.create_log_group(logGroupName=...)`: a
fresh log group has no retention policy. -/
def create_log_group (n : String) : LogGroup :=
  { name := n, retentionInDays := none }

/-- Embedding of `logs_client.put_retention_policy(logGroupName=...,
retentionInDays=days)`. -/
def put_retention_policy (g : LogGroup) (days : Nat) : LogGroup :=
  { g with retentionInDays := some days }

/-- The log group as configured by the logging-setup cell: created,
then given a retention of 365 days. -/
def logging_setup_log_group : LogGroup :=
  put_retention_policy (create_log_group log_group_name) 365

/-- C4: in the cross-region notebook's call trace, the inference
profiles are listed before any model invocation; the Converse demo loop
then calls `converse` exactly twice, once with the plain
foundation-model id and once with the inference-profile id, and the
InvokeModel demo loop calls `invoke_model` exactly twice in the same
pattern; afterwards — after every model invocation — invocation logging
is configured, and no model invocation follows it. -/
theorem cross_region_notebook_call_order (account_id : String) :
    ∃ pre mid post : List ApiCall,
      cross_region_notebook_calls account_id =
        pre ++ [ApiCall.listInferenceProfiles] ++ mid ++
          [ApiCall.putModelInvocationLoggingConfiguration log_group_name] ++ post
      ∧ pre.all (fun c => !isModelInvocation c) = true
      ∧ post.all (fun c => !isModelInvocation c) = true
      ∧ converse_demo_ids.map (fun p => ApiCall.converse p.2) =
          [ApiCall.converse "anthropic.claude-3-haiku-20240307-v1:0",
           ApiCall.converse "us.anthropic.claude-3-haiku-20240307-v1:0"]
      ∧ invoke_demo_ids.map (fun p => ApiCall.invokeModel p.2) =
          [ApiCall.invokeModel "anthropic.claude-3-sonnet-20240229-v1:0",
           ApiCall.invokeModel "us.anthropic.claude-3-sonnet-20240229-v1:0"]
      ∧ ApiCall.converse "anthropic.claude-3-haiku-20240307-v1:0" ∈ mid
      ∧ ApiCall.converse "us.anthropic.claude-3-haiku-20240307-v1:0" ∈ mid
      ∧ ApiCall.invokeModel "anthropic.claude-3-sonnet-20240229-v1:0" ∈ mid
      ∧ ApiCall.invokeModel "us.anthropic.claude-3-sonnet-20240229-v1:0" ∈ mid := by
  refine ⟨[ApiCall.listFoundationModels, ApiCall.getCallerIdentity],
    [ApiCall.getInferenceProfile "us.anthropic.claude-3-5-sonnet-20240620-v1:0",
     ApiCall.converse "anthropic.claude-3-haiku-20240307-v1:0",
     ApiCall.converse "us.anthropic.claude-3-haiku-20240307-v1:0",
     ApiCall.converse (inference_profile_arn account_id),
     ApiCall.invokeModel "anthropic.claude-3-sonnet-20240229-v1:0",
     ApiCall.invokeModel "us.anthropic.claude-3-sonnet-20240229-v1:0",
     ApiCall.langchainChat "us.anthropic.claude-3-sonnet-20240229-v1:0",
     ApiCall.langchainChat "us.anthropic.claude-3-sonnet-20240229-v1:0",
     ApiCall.langchainChat "us.anthropic.claude-3-haiku-20240307-v1:0",
     ApiCall.langchainChat "us.anthropic.claude-3-haiku-20240307-v1:0",
     ApiCall.createRole role_name,
     ApiCall.putRolePolicy role_name,
     ApiCall.createLogGroup log_group_name,
     ApiCall.putRetentionPolicy log_group_name 365],
    [ApiCall.putMetricFilter log_group_name
      "bedrock_cross_region_inference_rerouted"],
    rfl, rfl, rfl, rfl, rfl, ?_, ?_, ?_, ?_⟩
  · simp [List.mem_cons]
  · simp [List.mem_cons]
  · simp [List.mem_cons]
  · simp [List.mem_cons]

/-- C6 counterexample: the claim says that after creating the persistent
entities the code never sets or changes their lifecycle attributes, but
right after `create_log_group` the logging-setup cell sets the log
group's retention policy to 365 days — a lifecycle attribute change made
by this codebase. -/
theorem retention_policy_is_set :
    (create_log_group log_group_name).retentionInDays = none
    ∧ logging_setup_log_group.retentionInDays = some 365
    ∧ (∃ pre post : List ApiCall,
        cross_region_notebook_calls "123456789012" =
          pre ++ [ApiCall.putRetentionPolicy log_group_name 365] ++ post
        ∧ ApiCall.createLogGroup log_group_name ∈ pre) := by
  refine ⟨rfl, rfl,
    [ApiCall.listFoundationModels,
     ApiCall.getCallerIdentity,
     ApiCall.listInferenceProfiles,
     ApiCall.getInferenceProfile "us.anthropic.claude-3-5-sonnet-20240620-v1:0",
     ApiCall.converse "anthropic.claude-3-haiku-20240307-v1:0",
     ApiCall.converse "us.anthropic.claude-3-haiku-20240307-v1:0",
     ApiCall.converse (inference_profile_arn "123456789012"),
     ApiCall.invokeModel "anthropic.claude-3-sonnet-20240229-v1:0",
     ApiCall.invokeModel "us.anthropic.claude-3-sonnet-20240229-v1:0",
     ApiCall.langchainChat "us.anthropic.claude-3-sonnet-20240229-v1:0",
     ApiCall.langchainChat "us.anthropic.claude-3-sonnet-20240229-v1:0",
     ApiCall.langchainChat "us.anthropic.claude-3-haiku-20240307-v1:0",
     ApiCall.langchainChat "us.anthropic.claude-3-haiku-20240307-v1:0",
     ApiCall.createRole role_name,
     ApiCall.putRolePolicy role_name,
     ApiCall.createLogGroup log_group_name],
    [ApiCall.putModelInvocationLoggingConfiguration log_group_name,
     ApiCall.putMetricFilter log_group_name
       "bedrock_cross_region_inference_rerouted"],
    ?_, ?_⟩
  · rfl
  · simp [List.mem_cons]

/-- C6 amended: the persistent entities' ongoing lifecycle is owned by
the external cloud services, but the setup code itself does configure
them right after creation: the trace contains exactly four
configuration-mutating calls — the role's inline policy, the log group's
365-day retention policy, the account's invocation-logging
configuration, and the metric filter — and nothing else in either
notebook mutates a created resource's attributes. -/
theorem resource_mutation_characterised (account_id : String) :
    (cross_region_notebook_calls account_id).filter mutatesExistingResource =
      [ApiCall.putRolePolicy role_name,
       ApiCall.putRetentionPolicy log_group_name 365,
       ApiCall.putModelInvocationLoggingConfiguration log_group_name,
       ApiCall.putMetricFilter log_group_name
         "bedrock_cross_region_inference_rerouted"]
    ∧ logging_setup_log_group =
        { name := log_group_name, retentionInDays := some 365 } :=
  ⟨rfl, rfl⟩

/-! ## The RAG notebook pipeline (claims C3, C9)

The RAG notebook wires external components: `PyPDFDirectoryLoader`
(document loading), `CharacterTextSplitter` (chunking),
`BedrockEmbeddings` (embedding), `PGVector` (vector storage and
similarity search) and the Bedrock LLM.  The loader, splitter, embedding
model, distance function and LLM are external services or library code
and enter the embedding as parameters; the vector store rows and the
top-k similarity search follow the vector store's documented contract
(spec section 2: "load → split → embed → store → similarity search →
prompt assembly → model call"). -/

/-- A LangChain document: page content plus source metadata. -/
structure Document where
  page_content : String
  source : String
deriving DecidableEq, Repr

/-- An embedding vector, as returned by the external embedding model. -/
abbrev Embedding : Type := List Int

/-- `CharacterTextSplitter(chunk_size=1000, chunk_overlap=0)` from the
notebook, recorded by its configuration. -/
structure TextSplitterConfig where
  chunk_size : Nat
  chunk_overlap : Nat
deriving DecidableEq, Repr

/-- The splitter configuration in the source. -/
def text_splitter : TextSplitterConfig :=
  { chunk_size := 1000, chunk_overlap := 0 }

/-- `collection_name = "tbl_store_embedding"` from the notebook. -/
def collection_name : String := "tbl_store_embedding"

/-- The vector store: the collection name and the stored rows, one per
chunk, each holding the chunk and its embedding. -/
structure PGVectorStore where
  store_collection : String
  rows : List (Document × Embedding)
deriving Repr

/-- Embedding of `PGVector.from_documents(embedding=bedrock_embeddings,
documents=docs, collection_name=..., connection_string=...)`: every
chunk is embedded by the external model `embed` and stored with its
vector. -/
def PGVector_from_documents (embed : String → Embedding) (docs : List Document)
    (collection : String) : PGVectorStore :=
  { store_collection := collection
    rows := docs.map (fun d => (d, embed d.page_content)) }

/-- Insertion into a list sorted by ascending distance score. -/
def insertByScore (score : Document × Embedding → Int)
    (x : Document × Embedding) :
    List (Document × Embedding) → List (Document × Embedding)
  | [] => [x]
  | y :: ys =>
    if score x ≤ score y then x :: y :: ys else y :: insertByScore score x ys

/-- Sorting the stored rows by ascending distance score. -/
def sortByScore (score : Document × Embedding → Int) :
    List (Document × Embedding) → List (Document × Embedding)
  | [] => []
  | x :: xs => insertByScore score x (sortByScore score xs)

/-- Modelled from the spec: the external vector store's similarity
search (spec section 2, "similarity search"; configured in the notebook
via `db.as_retriever(search_type="similarity", search_kwargs=...)`),
which ranks the stored chunks by distance to the query embedding, using
the store's distance function `dist`, and returns the `k` nearest. -/
def similarity_search (dist : Embedding → Embedding → Int)
    (db : PGVectorStore) (query_embedding : Embedding) (k : Nat) :
    List Document :=
  (((sortByScore (fun row => dist query_embedding row.2) db.rows).map
    Prod.fst).take k)

/-- The "stuff" document chain of `RetrievalQA` with
`chain_type="stuff"`: the retrieved chunks' contents are joined into one
context string. -/
def stuff_context (docs : List Document) : String :=
  String.intercalate "\n\n" (docs.map Document.page_content)

/-- Embedding of the notebook's `PromptTemplate` with input variables
`context` and `question`, concatenating the literal template text (with
its original typos) around the two inputs. -/
def prompt_template (context question : String) : String :=
  "\n\nHuman: Use the following pieces of context to provide a detailed respone to the question at the end\n<context>\n"
    ++ context
    ++ "\n</context\n\nQuestion: "
    ++ question
    ++ "\n\nAssistant:"

/-- The configuration of `RetrievalQA.from_chain_type` in the notebook:
`chain_type="stuff"`,
`retriever=db.as_retriever(search_type="similarity", search_kwargs=...)`
with `k` set to 3, and `return_source_documents=True`. -/
structure RetrievalQAConfig where
  chain_type : String
  search_type : String
  k : Nat
  return_source_documents : Bool
deriving DecidableEq, Repr

/-- The literal configuration from the notebook source. -/
def qa_config : RetrievalQAConfig :=
  { chain_type := "stuff", search_type := "similarity", k := 3
    return_source_documents := true }

/-- The value returned by `qa(-x7b"query": query-x7d)`: the generated
`result` and the `source_documents` list. -/
structure QAResult where
  result : String
  source_documents : List Document
deriving Repr

/-- The stages of the retrieval pipeline, used to record execution
order. -/
inductive RagStage where
  | load
  | split
  | embed_store
  | search
  | assemble
  | model_call
deriving DecidableEq, Repr

/-- Embedding of one run of the `RetrievalQA` chain on a query: embed
the query, similarity-search the store for the `k` nearest chunks,
stuff them into the prompt template together with the question, and make
one LLM call; returns the stage trace of the run and the `QAResult`. -/
def run_retrieval_qa (dist : Embedding → Embedding → Int)
    (embed : String → Embedding) (llm : String → String)
    (db : PGVectorStore) (cfg : RetrievalQAConfig) (query : String) :
    List RagStage × QAResult :=
  let query_embedding := embed query
  let sources := similarity_search dist db query_embedding cfg.k
  let context := stuff_context sources
  let prompt := prompt_template context query
  let answer := llm prompt
  ([RagStage.search, RagStage.assemble, RagStage.model_call],
   { result := answer, source_documents := sources })

/-- Embedding of the RAG notebook top to bottom: `documents =
loader.load()`, `docs = text_splitter.split_documents(documents)`,
`db = PGVector.from_documents(...)`, then the `RetrievalQA` chain is
built with `qa_config` and run on the query; returns the stage trace and
the `QAResult`.  The loader, splitter, embedding model, store distance
and LLM are the external components, passed as parameters. -/
def rag_notebook_run (loader : Unit → List Document)
    (splitter : List Document → List Document)
    (embed : String → Embedding) (dist : Embedding → Embedding → Int)
    (llm : String → String) (query : String) : List RagStage × QAResult :=
  let documents := loader ()
  let docs := splitter documents
  let db := PGVector_from_documents embed docs collection_name
  let (tr, qa) := run_retrieval_qa dist embed llm db qa_config query
  ([RagStage.load, RagStage.split, RagStage.embed_store] ++ tr, qa)

/-- Inserting a row grows the sorted list by one. -/
theorem insertByScore_length (score : Document × Embedding → Int)
    (x : Document × Embedding) (l : List (Document × Embedding)) :
    (insertByScore score x l).length = l.length + 1 := by
  induction l with
  | nil => rfl
  | cons y ys ih =>
    simp only [insertByScore]
    split
    · rfl
    · simp [ih]

/-- Sorting by score preserves the number of rows. -/
theorem sortByScore_length (score : Document × Embedding → Int)
    (l : List (Document × Embedding)) :
    (sortByScore score l).length = l.length := by
  induction l with
  | nil => rfl
  | cons x xs ih => simp [sortByScore, insertByScore_length, ih]

/-- The similarity search returns at most `k` chunks. -/
theorem similarity_search_length_le (dist : Embedding → Embedding → Int)
    (db : PGVectorStore) (qe : Embedding) (k : Nat) :
    (similarity_search dist db qe k).length ≤ k := by
  simp only [similarity_search, List.length_take, List.length_map]
  exact min_le_left _ _

/-- C3: the RAG notebook executes the retrieval pipeline in order —
load, split, embed-and-store, similarity search, prompt assembly, model
call — with exactly one model call; the stored rows are the embedded
chunks of the split documents, the returned source documents are exactly
the similarity-search results over that store, and the answer is the
single LLM call on the prompt assembled from those retrieved chunks and
the query. -/
theorem rag_pipeline_order (loader : Unit → List Document)
    (splitter : List Document → List Document)
    (embed : String → Embedding) (dist : Embedding → Embedding → Int)
    (llm : String → String) (query : String) :
    (rag_notebook_run loader splitter embed dist llm query).1 =
      [RagStage.load, RagStage.split, RagStage.embed_store, RagStage.search,
       RagStage.assemble, RagStage.model_call]
    ∧ ((rag_notebook_run loader splitter embed dist llm query).1.count
        RagStage.model_call) = 1
    ∧ (rag_notebook_run loader splitter embed dist llm query).2.source_documents
        = similarity_search dist
            (PGVector_from_documents embed (splitter (loader ()))
              collection_name)
            (embed query) qa_config.k
    ∧ (rag_notebook_run loader splitter embed dist llm query).2.result
        = llm (prompt_template
            (stuff_context
              ((rag_notebook_run loader splitter embed dist llm
                query).2.source_documents))
            query) := by
  refine ⟨rfl, rfl, rfl, rfl⟩

/-- C9: the QA chain retrieves at most 3 chunks per query — the
retriever is configured with similarity search and `k = 3`, and for
every choice of external components and every query, the returned
`source_documents` list has length at most 3, and the prompt context is
assembled from exactly that list of at most 3 chunks. -/
theorem rag_at_most_three_chunks (loader : Unit → List Document)
    (splitter : List Document → List Document)
    (embed : String → Embedding) (dist : Embedding → Embedding → Int)
    (llm : String → String) (query : String) :
    qa_config.k = 3
    ∧ qa_config.search_type = "similarity"
    ∧ (rag_notebook_run loader splitter embed dist llm
        query).2.source_documents.length ≤ 3
    ∧ (rag_notebook_run loader splitter embed dist llm query).2.result
        = llm (prompt_template
            (stuff_context
              ((rag_notebook_run loader splitter embed dist llm
                query).2.source_documents))
            query) := by
  refine ⟨rfl, rfl, ?_, rfl⟩
  exact similarity_search_length_le dist
    (PGVector_from_documents embed (splitter (loader ())) collection_name)
    (embed query) 3

end BedrockWorkshop
